import Mathlib

/-!
Shallow embedding of the py4DSTEM datastructure core:
`py4DSTEM/process/datastructure/datacube.py` (the `DataCube` class: reshape,
binning, and metadata scraping) and
`py4DSTEM/process/datastructure/diffraction.py` (the `DiffractionSlice` class).

Modelling conventions:
* A numpy 4D array is a shape `(n0, n1, n2, n3)` together with its row-major
  flat contents `flat : Nat → Int`.  `reshape` keeps the flat contents and
  changes only the shape, and succeeds exactly when the element counts agree
  (otherwise numpy raises `ValueError`).  Observations (element access, sums,
  shape) only ever touch in-range indices.
* Exceptions are explicit: a mutating method returns the resulting state
  together with `Option PyErr` (`none` means the call returned normally).
  `set_scan_shape` catches its `ValueError`, so it is a total
  `DataCube → DataCube` function.
* A hyperspy `DictionaryTreeBrowser` is an ordered sequence of children, each
  child being a key paired with either a leaf value or a subtree (the source
  distinguishes the two at runtime with `istree_hs`; here the constructor
  does).  An absent tree is `none`.
* Python dicts used as metadata dictionaries are modelled by their lookup
  function `String → Option PyVal`; assignment overwrites the key.
-/

/-- Scalar values stored in metadata tree leaves and metadata dictionaries.
The claims only exercise integer and string values (including the `-1`
sentinel and the `""` default of the source). -/
inductive PyVal where
  | int : Int → PyVal
  | str : String → PyVal
deriving DecidableEq

/-- Python exceptions raised by the embedded code. -/
inductive PyErr where
  | attributeError
  | assertionError
  | valueError
deriving DecidableEq

/-- A Python number passed as a binning factor.  `type(x) is int` is true
exactly for the `int` constructor; `float` carries an exact rational, which is
faithful for the comparisons the source performs. -/
inductive PyNum where
  | int : Int → PyNum
  | float : ℚ → PyNum

/-- A hyperspy `DictionaryTreeBrowser`: the ordered children of a node.  Each
child is a key together with either a leaf value (`consLeaf`) or a nested
subtree (`consTree`). -/
inductive HSTree where
  | nil : HSTree
  | consLeaf (key : String) (v : PyVal) (rest : HSTree) : HSTree
  | consTree (key : String) (sub : HSTree) (rest : HSTree) : HSTree
deriving DecidableEq

/-- The loop of `DataCube.search_hs_tree` (datacube.py lines 184-192) over a
non-absent tree: iterate the children in order; a leaf child returns
`(True, value)` on key match; a subtree child is searched recursively and the
first successful find wins; exhaustion yields `(False, -1)`. -/
def HSTree.search (key : String) : HSTree → Bool × PyVal
  | .nil => (false, PyVal.int (-1))
  | .consLeaf k v rest => if key = k then (true, v) else rest.search key
  | .consTree _ sub rest =>
    match sub.search key with
    | (true, v) => (true, v)
    | (false, _) => rest.search key

/-- `DataCube.search_hs_tree` (datacube.py lines 173-192), including the
`hs_tree is None` check of line 181, which returns `(False, -1)` at once. -/
def search_hs_tree (key : String) : Option HSTree → Bool × PyVal
  | none => (false, PyVal.int (-1))
  | some t => t.search key

/-- The leaf key/value pairs of a tree in depth-first pre-order (children in
their natural order, each subtree child expanded in place).  Used to state the
traversal-order contract of `search_hs_tree`. -/
def HSTree.leaves : HSTree → List (String × PyVal)
  | .nil => []
  | .consLeaf k v rest => (k, v) :: rest.leaves
  | .consTree _ sub rest => sub.leaves ++ rest.leaves

/-- A Python dict holding scraped metadata, as its lookup function. -/
def PyDict := String → Option PyVal

def PyDict.empty : PyDict := fun _ => none

/-- Dict assignment `d[k] = v`. -/
def PyDict.set (d : PyDict) (k : String) (v : PyVal) : PyDict :=
  fun q => if q = k then some v else d q

/-- The inner loop of `DataCube.get_metadata_from_original_metadata`
(datacube.py lines 167-171): try each candidate key in order and on the first
`found` assign the value and stop. -/
def try_candidate_keys (hs_tree : Option HSTree) (attr : String) (d : PyDict) :
    List String → PyDict
  | [] => d
  | key :: rest =>
    match search_hs_tree key hs_tree with
    | (true, v) => d.set attr v
    | (false, _) => try_candidate_keys hs_tree attr d rest

/-- `DataCube.get_metadata_from_original_metadata` (datacube.py lines
154-171): for every canonical field of `metadata_search_dict`, first assign
`metadata_dict[attr] = ""` (line 166, unconditionally), then try the
candidate keys in order, assigning the first found value. -/
def get_metadata_from_original_metadata (hs_tree : Option HSTree)
    (metadata_search_dict : List (String × List String))
    (metadata_dict : PyDict) : PyDict :=
  metadata_search_dict.foldl
    (fun d p => try_candidate_keys hs_tree p.1 (d.set p.1 (PyVal.str "")) p.2)
    metadata_dict

/-- datacube.py lines 214-229. -/
def original_to_microscope_search_dict : List (String × List String) :=
  [("accelerating_voltage_kV", ["beam_energy"]),
   ("camera_length_mm", ["camera_length"]),
   ("C2_aperture", [""]),
   ("convergence_semiangle_mrad", [""]),
   ("spot_size", [""]),
   ("scan_rotation_degrees", [""]),
   ("dwell_time_ms", [""]),
   ("scan_size_Ny", [""]),
   ("scan_size_Nx", [""]),
   ("R_pix_size", [""]),
   ("R_units", [""]),
   ("K_pix_size", [""]),
   ("K_units", [""]),
   ("probe_FWHM_nm", [""])]

/-- datacube.py lines 231-235. -/
def original_to_sample_search_dict : List (String × List String) :=
  [("sample_metadata_1", [""]),
   ("sample_metadata_2", [""]),
   ("sample_metadata_3", [""])]

/-- datacube.py lines 237-241. -/
def original_to_user_search_dict : List (String × List String) :=
  [("user_metadata_1", [""]),
   ("user_metadata_2", [""]),
   ("user_metadata_3", [""])]

/-- datacube.py lines 243-245. -/
def original_to_processing_search_dict : List (String × List String) :=
  [("original_filename", ["original_filename"])]

/-- datacube.py lines 247-251. -/
def original_to_calibration_search_dict : List (String × List String) :=
  [("calibration_metadata_1", [""]),
   ("calibration_metadata_2", [""]),
   ("calibration_metadata_3", [""])]

/-- datacube.py lines 253-257. -/
def original_to_comments_search_dict : List (String × List String) :=
  [("comments_metadata_1", [""]),
   ("comments_metadata_2", [""]),
   ("comments_metadata_3", [""])]

/-- The six scraped metadata dictionaries of `DataCube.setup_metadata`. -/
structure Metadata where
  microscope : PyDict
  sample : PyDict
  user : PyDict
  processing : PyDict
  calibration : PyDict
  comments : PyDict

def Metadata.empty : Metadata :=
  { microscope := PyDict.empty, sample := PyDict.empty, user := PyDict.empty,
    processing := PyDict.empty, calibration := PyDict.empty,
    comments := PyDict.empty }

/-- `DataCube.setup_metadata` (datacube.py lines 115-152), restricted to the
six scraped dictionaries: each category dict starts empty (lines 129-134),
is populated from the full tree `original_metadata_all` (lines 140-145), and
then `get_metadata_from_original_metadata` is run again with the shortlist
tree on the same dict (lines 147-152). -/
def setup_metadata (original_metadata_shortlist original_metadata_all :
    Option HSTree) : Metadata :=
  let m1 : Metadata :=
    { microscope := get_metadata_from_original_metadata original_metadata_all
        original_to_microscope_search_dict PyDict.empty
      sample := get_metadata_from_original_metadata original_metadata_all
        original_to_sample_search_dict PyDict.empty
      user := get_metadata_from_original_metadata original_metadata_all
        original_to_user_search_dict PyDict.empty
      processing := get_metadata_from_original_metadata original_metadata_all
        original_to_processing_search_dict PyDict.empty
      calibration := get_metadata_from_original_metadata original_metadata_all
        original_to_calibration_search_dict PyDict.empty
      comments := get_metadata_from_original_metadata original_metadata_all
        original_to_comments_search_dict PyDict.empty }
  { microscope := get_metadata_from_original_metadata original_metadata_shortlist
      original_to_microscope_search_dict m1.microscope
    sample := get_metadata_from_original_metadata original_metadata_shortlist
      original_to_sample_search_dict m1.sample
    user := get_metadata_from_original_metadata original_metadata_shortlist
      original_to_user_search_dict m1.user
    processing := get_metadata_from_original_metadata original_metadata_shortlist
      original_to_processing_search_dict m1.processing
    calibration := get_metadata_from_original_metadata original_metadata_shortlist
      original_to_calibration_search_dict m1.calibration
    comments := get_metadata_from_original_metadata original_metadata_shortlist
      original_to_comments_search_dict m1.comments }

/-- Row-major flat index of the multi-index `(i, j, k, l)` in a 4D array with
trailing extents `(n1, n2, n3)`. -/
def idx4 (n1 n2 n3 i j k l : Nat) : Nat := ((i * n1 + j) * n2 + k) * n3 + l

/-- A numpy 4D array: shape plus row-major flat contents.  Two arrays that
agree on the shape and on all in-range positions denote the same numpy array;
`flat` at out-of-range indices is never observed. -/
structure Arr4 where
  n0 : Nat
  n1 : Nat
  n2 : Nat
  n3 : Nat
  flat : Nat → Int

/-- Total element count (`arr.size` in numpy). -/
def Arr4.count (a : Arr4) : Nat := a.n0 * a.n1 * a.n2 * a.n3

/-- Element access `a[i, j, k, l]`. -/
def Arr4.get (a : Arr4) (i j k l : Nat) : Int :=
  a.flat (idx4 a.n1 a.n2 a.n3 i j k l)

/-- Build a 4D array of the given shape from a value function, computing the
flat contents by decomposing the flat index (mixed-radix inverse of `idx4`). -/
def Arr4.ofVal (n0 n1 n2 n3 : Nat) (v : Nat → Nat → Nat → Nat → Int) : Arr4 :=
  { n0 := n0, n1 := n1, n2 := n2, n3 := n3,
    flat := fun t => v (t / n3 / n2 / n1) (t / n3 / n2 % n1) (t / n3 % n2) (t % n3) }

/-- `arr.sum()`: the sum of all elements. -/
def Arr4.total (a : Arr4) : Int :=
  ∑ i ∈ Finset.range a.n0, ∑ j ∈ Finset.range a.n1,
    ∑ k ∈ Finset.range a.n2, ∑ l ∈ Finset.range a.n3, a.get i j k l

/-- Length of the Python slice `x[:-k]` on an axis of length `n`: for `k = 0`
the stop index is `-0 = 0`, so the sliced axis is empty; for `k > 0` it keeps
the first `n - k` entries. -/
def pySliceNegLen (n k : Nat) : Nat := if k = 0 then 0 else n - k

/-- The slice `a[:, :, :m2, :m3]`: keep the leading `m2` and `m3` entries of
the last two axes. -/
def slice23 (a : Arr4) (m2 m3 : Nat) : Arr4 :=
  Arr4.ofVal a.n0 a.n1 m2 m3 (fun i j k l => a.get i j k l)

/-- The slice `a[:m0, :m1, :, :]`: keep the leading `m0` and `m1` entries of
the first two axes. -/
def slice01 (a : Arr4) (m0 m1 : Nat) : Arr4 :=
  Arr4.ofVal m0 m1 a.n2 a.n3 (fun i j k l => a.get i j k l)

/-- `a.reshape(m0, m1, m2, q, m3, q).sum(axis=(3, 5))` in the situation of
`bin_diffraction`: axes 2 and 3 of `a` are split into `(m2, q)` and `(m3, q)`
and the two size-`q` axes are summed.  (The caller checks the element-count
precondition under which the numpy reshape succeeds and is this axis split.) -/
def binSum23 (a : Arr4) (m0 m1 m2 m3 q : Nat) : Arr4 :=
  Arr4.ofVal m0 m1 m2 m3 (fun i j p r =>
    ∑ u ∈ Finset.range q, ∑ v ∈ Finset.range q,
      a.get i j (p * q + u) (r * q + v))

/-- `a.reshape(m0, q, m1, q, m2, m3).sum(axis=(1, 3))` in the situation of
`bin_real`: axes 0 and 1 of `a` are split into `(m0, q)` and `(m1, q)` and the
two size-`q` axes are summed. -/
def binSum01 (a : Arr4) (m0 m1 m2 m3 q : Nat) : Arr4 :=
  Arr4.ofVal m0 m1 m2 m3 (fun p r k l =>
    ∑ u ∈ Finset.range q, ∑ v ∈ Finset.range q,
      a.get (p * q + u) (r * q + v) k l)

/-- The `DataCube` state: the 4D array and the instance attributes set by
`__init__`.  `R_N` is set once at construction to `R_Ny * R_Nx` and is never
updated afterwards (as in the source). -/
structure DataCube where
  data4D : Arr4
  R_Ny : Nat
  R_Nx : Nat
  Q_Ny : Nat
  Q_Nx : Nat
  R_N : Nat
  metadata : Metadata

/-- `DataCube.set_scan_shape` (datacube.py lines 41-49):
`self.data4D.reshape(self.R_N, self.Q_Ny, self.Q_Nx).reshape(R_Ny, R_Nx,
self.Q_Ny, self.Q_Nx)`.  Each numpy reshape keeps the row-major flat contents
and requires the element counts to agree, raising `ValueError` otherwise; the
`except ValueError: pass` makes any failure a silent no-op, so nothing is
assigned unless both reshapes succeed. -/
def set_scan_shape (R_Ny R_Nx : Nat) (s : DataCube) : DataCube :=
  if s.data4D.count = s.R_N * s.Q_Ny * s.Q_Nx ∧
     s.R_N * s.Q_Ny * s.Q_Nx = R_Ny * R_Nx * s.Q_Ny * s.Q_Nx then
    { s with
      data4D := { s.data4D with n0 := R_Ny, n1 := R_Nx, n2 := s.Q_Ny, n3 := s.Q_Nx },
      R_Ny := R_Ny, R_Nx := R_Nx }
  else s

/-- `DataCube.__init__` (datacube.py lines 26-39): store the data and the
declared extents, set `R_N = R_Ny * R_Nx`, call `set_scan_shape(R_Ny, R_Nx)`,
then `setup_metadata(shortlist, all)`. -/
def DataCube.init (data : Arr4) (R_Ny R_Nx Q_Ny Q_Nx : Nat)
    (original_metadata_shortlist original_metadata_all : Option HSTree) :
    DataCube :=
  { set_scan_shape R_Ny R_Nx
      { data4D := data, R_Ny := R_Ny, R_Nx := R_Nx, Q_Ny := Q_Ny, Q_Nx := Q_Nx,
        R_N := R_Ny * R_Nx, metadata := Metadata.empty }
    with metadata :=
      setup_metadata original_metadata_shortlist original_metadata_all }

/-- `DataCube.bin_diffraction` (datacube.py lines 78-93).  `bin_q <= 1`
returns at once; `assert type(bin_q) is int` raises `AssertionError` for a
float factor; otherwise the shape `(R_Ny, R_Nx, Q_Ny, Q_Nx)` is read from
`data4D`, the last two axes are truncated with the slices
`[:, :, :-(Q_Ny % bin_q), :-(Q_Nx % bin_q)]` unless both remainders are zero,
and the array is reassigned to the 6D reshape-and-sum.  That reshape raises an
uncaught `ValueError` when the truncated element count does not match
`R_Ny * R_Nx * (Q_Ny // bin_q) * bin_q * (Q_Nx // bin_q) * bin_q`, in which
case `data4D` is left holding the truncated array.  None of `R_Ny`, `R_Nx`,
`Q_Ny`, `Q_Nx`, `R_N` is reassigned by this method. -/
def bin_diffraction (bin_q : PyNum) (s : DataCube) : DataCube × Option PyErr :=
  match bin_q with
  | PyNum.float x =>
    if x ≤ 1 then (s, none) else (s, some PyErr.assertionError)
  | PyNum.int n =>
    if n ≤ 1 then (s, none)
    else
      let a1 := if s.data4D.n2 % n.toNat = 0 ∧ s.data4D.n3 % n.toNat = 0 then
          s.data4D
        else
          slice23 s.data4D (pySliceNegLen s.data4D.n2 (s.data4D.n2 % n.toNat))
            (pySliceNegLen s.data4D.n3 (s.data4D.n3 % n.toNat))
      if a1.count = s.data4D.n0 * s.data4D.n1 * (s.data4D.n2 / n.toNat) *
          n.toNat * (s.data4D.n3 / n.toNat) * n.toNat then
        ({ s with data4D := (binSum23 a1 s.data4D.n0 s.data4D.n1
            (s.data4D.n2 / n.toNat) (s.data4D.n3 / n.toNat) n.toNat) }, none)
      else ({ s with data4D := a1 }, some PyErr.valueError)

/-- `DataCube.bin_real` (datacube.py lines 95-110), the mirror image of
`bin_diffraction` on the first two axes: truncation slices
`[:-(R_Ny % bin_r), :-(R_Nx % bin_r), :, :]` and the 6D reshape
`(R_Ny // bin_r, bin_r, R_Nx // bin_r, bin_r, Q_Ny, Q_Nx)` summed over axes
1 and 3.  As in the source, no extent attribute is reassigned. -/
def bin_real (bin_r : PyNum) (s : DataCube) : DataCube × Option PyErr :=
  match bin_r with
  | PyNum.float x =>
    if x ≤ 1 then (s, none) else (s, some PyErr.assertionError)
  | PyNum.int n =>
    if n ≤ 1 then (s, none)
    else
      let a1 := if s.data4D.n0 % n.toNat = 0 ∧ s.data4D.n1 % n.toNat = 0 then
          s.data4D
        else
          slice01 s.data4D (pySliceNegLen s.data4D.n0 (s.data4D.n0 % n.toNat))
            (pySliceNegLen s.data4D.n1 (s.data4D.n1 % n.toNat))
      if a1.count = s.data4D.n0 / n.toNat * n.toNat * (s.data4D.n1 / n.toNat) *
          n.toNat * s.data4D.n2 * s.data4D.n3 then
        ({ s with data4D := (binSum01 a1 (s.data4D.n0 / n.toNat)
            (s.data4D.n1 / n.toNat) s.data4D.n2 s.data4D.n3 n.toNat) }, none)
      else ({ s with data4D := a1 }, some PyErr.valueError)

/-- A numpy 2D array (shape plus row-major flat contents). -/
structure Arr2 where
  n0 : Nat
  n1 : Nat
  flat : Nat → Int

def Arr2.shape (a : Arr2) : Nat × Nat := (a.n0, a.n1)

/-- A fully constructed `DiffractionSlice` object (diffraction.py). -/
structure DiffractionSlice where
  parentDataCube : DataCube
  Q_Ny : Nat
  Q_Nx : Nat
  data2D : Arr2

/-- The attribute store of a `DiffractionSlice` instance while `__init__` is
running: each attribute is absent (`none`) until the corresponding assignment
statement has executed; reading an absent attribute raises `AttributeError`. -/
structure DiffractionSliceAttrs where
  parentDataCube : Option DataCube := none
  Q_Ny : Option Nat := none
  Q_Nx : Option Nat := none
  data2D : Option Arr2 := none

/-- `DiffractionSlice.__init__` (diffraction.py lines 9-17), statement by
statement.  Line 14 sets `self.parentDataCube`.  Line 15 is
`self.Q_Ny, self.Q_Nx = self.parentDataCube.Q_Ny, self.Q_Nx`: the right-hand
tuple is evaluated left to right before any assignment, so it reads
`self.parentDataCube.Q_Ny` (present) and then `self.Q_Nx` (not yet assigned).
Line 16 asserts `data.shape == (self.Q_Ny, self.Q_Nx)`; line 17 sets
`self.data2D`. -/
def DiffractionSlice.init (parentDataCube : DataCube) (data : Arr2) :
    Except PyErr DiffractionSlice :=
  let a0 : DiffractionSliceAttrs := {}
  let a1 : DiffractionSliceAttrs := { a0 with parentDataCube := some parentDataCube }
  match a1.parentDataCube with
  | none => Except.error PyErr.attributeError
  | some p =>
    match a1.Q_Nx with
    | none => Except.error PyErr.attributeError
    | some q_nx =>
      let q_ny := p.Q_Ny
      if data.shape = (q_ny, q_nx) then
        Except.ok { parentDataCube := p, Q_Ny := q_ny, Q_Nx := q_nx, data2D := data }
      else Except.error PyErr.assertionError

/-! ### Concrete inputs used by the evaluation, counterexample and witness
theorems -/

/-- A 1 x 1 x 2 x 2 array of ones. -/
def arr_1122 : Arr4 := { n0 := 1, n1 := 1, n2 := 2, n3 := 2, flat := fun _ => 1 }

/-- The DataCube over `arr_1122` with matching declared extents and no
metadata trees. -/
def dc_1122 : DataCube := DataCube.init arr_1122 1 1 2 2 none none

/-- A 1 x 1 x 4 x 3 array of ones: the diffraction extents are `(4, 3)`, so a
binning factor of 2 divides the first binned extent but not the second. -/
def arr_1143 : Arr4 := { n0 := 1, n1 := 1, n2 := 4, n3 := 3, flat := fun _ => 1 }

/-- The DataCube over `arr_1143`. -/
def dc_1143 : DataCube := DataCube.init arr_1143 1 1 4 3 none none

/-- A metadata tree holding the single leaf `beam_energy = 200`. -/
def beam_energy_tree : HSTree :=
  HSTree.consLeaf "beam_energy" (PyVal.int 200) HSTree.nil

/-- A DataCube constructed with an absent shortlist tree and a full tree
holding `beam_energy = 200`. -/
def dc_beam : DataCube := DataCube.init arr_1122 1 1 2 2 none (some beam_energy_tree)

/-- A tree whose single leaf legitimately holds the value `-1`. -/
def minus_one_leaf_tree : HSTree :=
  HSTree.consLeaf "k" (PyVal.int (-1)) HSTree.nil

/-- A 2 x 2 x 2 x 2 array with pairwise distinct entries. -/
def arr_2222 : Arr4 :=
  { n0 := 2, n1 := 2, n2 := 2, n3 := 2, flat := fun t => (t : Int) }

/-- A DataCube state over `arr_2222` with matching recorded extents. -/
def dc_2222 : DataCube :=
  { data4D := arr_2222, R_Ny := 2, R_Nx := 2, Q_Ny := 2, Q_Nx := 2, R_N := 4,
    metadata := Metadata.empty }

/-! ### Index and summation lemmas -/

lemma mulAddDiv {b : Nat} (x r : Nat) (hr : r < b) : (x * b + r) / b = x := by
  have hb : 0 < b := Nat.zero_lt_of_lt hr
  rw [mul_comm, Nat.mul_add_div hb, Nat.div_eq_of_lt hr, add_zero]

lemma mulAddMod {b : Nat} (x r : Nat) (hr : r < b) : (x * b + r) % b = r := by
  rw [mul_comm, Nat.mul_add_mod, Nat.mod_eq_of_lt hr]

lemma Arr4.ofVal_get (n0 n1 n2 n3 : Nat) (v : Nat → Nat → Nat → Nat → Int)
    (i j k l : Nat) (hi : i < n0) (hj : j < n1) (hk : k < n2) (hl : l < n3) :
    (Arr4.ofVal n0 n1 n2 n3 v).get i j k l = v i j k l := by
  simp only [Arr4.get, Arr4.ofVal, idx4]
  rw [mulAddDiv _ _ hl, mulAddMod _ _ hl, mulAddDiv _ _ hk, mulAddMod _ _ hk,
    mulAddDiv _ _ hj, mulAddMod _ _ hj]

lemma sum_bin_split (g : Nat → Int) (m q : Nat) :
    ∑ p ∈ Finset.range m, ∑ u ∈ Finset.range q, g (p * q + u)
      = ∑ k ∈ Finset.range (m * q), g k := by
  induction m with
  | zero => simp
  | succ n ih =>
    rw [Finset.sum_range_succ, ih, Nat.succ_mul, Finset.sum_range_add]

lemma sum_rot3 (g : Nat → Nat → Nat → Int) (A B C : Nat) :
    ∑ i ∈ Finset.range A, ∑ j ∈ Finset.range B, ∑ k ∈ Finset.range C, g i j k
      = ∑ k ∈ Finset.range C, ∑ i ∈ Finset.range A, ∑ j ∈ Finset.range B, g i j k :=
  calc
    ∑ i ∈ Finset.range A, ∑ j ∈ Finset.range B, ∑ k ∈ Finset.range C, g i j k
        = ∑ i ∈ Finset.range A, ∑ k ∈ Finset.range C, ∑ j ∈ Finset.range B, g i j k :=
          Finset.sum_congr rfl fun i _ => Finset.sum_comm
    _ = ∑ k ∈ Finset.range C, ∑ i ∈ Finset.range A, ∑ j ∈ Finset.range B, g i j k :=
          Finset.sum_comm

lemma sum_comm4 (f : Nat → Nat → Nat → Nat → Int) (A B C D : Nat) :
    ∑ a ∈ Finset.range A, ∑ b ∈ Finset.range B, ∑ c ∈ Finset.range C,
        ∑ d ∈ Finset.range D, f a b c d
      = ∑ c ∈ Finset.range C, ∑ d ∈ Finset.range D, ∑ a ∈ Finset.range A,
        ∑ b ∈ Finset.range B, f a b c d :=
  calc
    ∑ a ∈ Finset.range A, ∑ b ∈ Finset.range B, ∑ c ∈ Finset.range C,
        ∑ d ∈ Finset.range D, f a b c d
        = ∑ a ∈ Finset.range A, ∑ c ∈ Finset.range C, ∑ b ∈ Finset.range B,
            ∑ d ∈ Finset.range D, f a b c d :=
          Finset.sum_congr rfl fun a _ => Finset.sum_comm
    _ = ∑ c ∈ Finset.range C, ∑ a ∈ Finset.range A, ∑ b ∈ Finset.range B,
            ∑ d ∈ Finset.range D, f a b c d := Finset.sum_comm
    _ = ∑ c ∈ Finset.range C, ∑ d ∈ Finset.range D, ∑ a ∈ Finset.range A,
            ∑ b ∈ Finset.range B, f a b c d :=
          Finset.sum_congr rfl fun c _ => sum_rot3 (fun a b d => f a b c d) A B D

lemma sum_bin_split2 (G : Nat → Nat → Int) (m2 m3 q : Nat) :
    ∑ p ∈ Finset.range m2, ∑ r ∈ Finset.range m3, ∑ u ∈ Finset.range q,
        ∑ v ∈ Finset.range q, G (p * q + u) (r * q + v)
      = ∑ k ∈ Finset.range (m2 * q), ∑ l ∈ Finset.range (m3 * q), G k l :=
  calc
    ∑ p ∈ Finset.range m2, ∑ r ∈ Finset.range m3, ∑ u ∈ Finset.range q,
        ∑ v ∈ Finset.range q, G (p * q + u) (r * q + v)
        = ∑ p ∈ Finset.range m2, ∑ u ∈ Finset.range q, ∑ r ∈ Finset.range m3,
            ∑ v ∈ Finset.range q, G (p * q + u) (r * q + v) :=
          Finset.sum_congr rfl fun p _ => Finset.sum_comm
    _ = ∑ p ∈ Finset.range m2, ∑ u ∈ Finset.range q,
            ∑ l ∈ Finset.range (m3 * q), G (p * q + u) l :=
          Finset.sum_congr rfl fun p _ => Finset.sum_congr rfl fun u _ =>
            sum_bin_split (fun l => G (p * q + u) l) m3 q
    _ = ∑ k ∈ Finset.range (m2 * q), ∑ l ∈ Finset.range (m3 * q), G k l :=
          sum_bin_split (fun k => ∑ l ∈ Finset.range (m3 * q), G k l) m2 q

lemma binSum23_total (a : Arr4) (m0 m1 m2 m3 q : Nat) :
    (binSum23 a m0 m1 m2 m3 q).total
      = ∑ i ∈ Finset.range m0, ∑ j ∈ Finset.range m1,
          ∑ k ∈ Finset.range (m2 * q), ∑ l ∈ Finset.range (m3 * q),
            a.get i j k l := by
  show ∑ i ∈ Finset.range m0, ∑ j ∈ Finset.range m1, ∑ p ∈ Finset.range m2,
    ∑ r ∈ Finset.range m3, (binSum23 a m0 m1 m2 m3 q).get i j p r = _
  calc
    ∑ i ∈ Finset.range m0, ∑ j ∈ Finset.range m1, ∑ p ∈ Finset.range m2,
        ∑ r ∈ Finset.range m3, (binSum23 a m0 m1 m2 m3 q).get i j p r
        = ∑ i ∈ Finset.range m0, ∑ j ∈ Finset.range m1, ∑ p ∈ Finset.range m2,
            ∑ r ∈ Finset.range m3, ∑ u ∈ Finset.range q, ∑ v ∈ Finset.range q,
              a.get i j (p * q + u) (r * q + v) := by
          refine Finset.sum_congr rfl fun i hi => Finset.sum_congr rfl fun j hj =>
            Finset.sum_congr rfl fun p hp => Finset.sum_congr rfl fun r hr => ?_
          exact Arr4.ofVal_get m0 m1 m2 m3 _ i j p r (Finset.mem_range.mp hi)
            (Finset.mem_range.mp hj) (Finset.mem_range.mp hp) (Finset.mem_range.mp hr)
    _ = ∑ i ∈ Finset.range m0, ∑ j ∈ Finset.range m1,
            ∑ k ∈ Finset.range (m2 * q), ∑ l ∈ Finset.range (m3 * q),
              a.get i j k l :=
          Finset.sum_congr rfl fun i _ => Finset.sum_congr rfl fun j _ =>
            sum_bin_split2 (a.get i j) m2 m3 q

lemma binSum01_total (a : Arr4) (m0 m1 m2 m3 q : Nat) :
    (binSum01 a m0 m1 m2 m3 q).total
      = ∑ x ∈ Finset.range (m0 * q), ∑ y ∈ Finset.range (m1 * q),
          ∑ k ∈ Finset.range m2, ∑ l ∈ Finset.range m3, a.get x y k l := by
  show ∑ p ∈ Finset.range m0, ∑ r ∈ Finset.range m1, ∑ k ∈ Finset.range m2,
    ∑ l ∈ Finset.range m3, (binSum01 a m0 m1 m2 m3 q).get p r k l = _
  calc
    ∑ p ∈ Finset.range m0, ∑ r ∈ Finset.range m1, ∑ k ∈ Finset.range m2,
        ∑ l ∈ Finset.range m3, (binSum01 a m0 m1 m2 m3 q).get p r k l
        = ∑ p ∈ Finset.range m0, ∑ r ∈ Finset.range m1, ∑ k ∈ Finset.range m2,
            ∑ l ∈ Finset.range m3, ∑ u ∈ Finset.range q, ∑ v ∈ Finset.range q,
              a.get (p * q + u) (r * q + v) k l := by
          refine Finset.sum_congr rfl fun p hp => Finset.sum_congr rfl fun r hr =>
            Finset.sum_congr rfl fun k hk => Finset.sum_congr rfl fun l hl => ?_
          exact Arr4.ofVal_get m0 m1 m2 m3 _ p r k l (Finset.mem_range.mp hp)
            (Finset.mem_range.mp hr) (Finset.mem_range.mp hk) (Finset.mem_range.mp hl)
    _ = ∑ p ∈ Finset.range m0, ∑ r ∈ Finset.range m1, ∑ u ∈ Finset.range q,
            ∑ v ∈ Finset.range q, ∑ k ∈ Finset.range m2, ∑ l ∈ Finset.range m3,
              a.get (p * q + u) (r * q + v) k l :=
          Finset.sum_congr rfl fun p _ => Finset.sum_congr rfl fun r _ =>
            sum_comm4 (fun k l u v => a.get (p * q + u) (r * q + v) k l) m2 m3 q q
    _ = ∑ x ∈ Finset.range (m0 * q), ∑ y ∈ Finset.range (m1 * q),
            ∑ k ∈ Finset.range m2, ∑ l ∈ Finset.range m3, a.get x y k l :=
          sum_bin_split2
            (fun x y => ∑ k ∈ Finset.range m2, ∑ l ∈ Finset.range m3, a.get x y k l)
            m0 m1 q

/-! ### Characterization of the tree search -/

lemma search_eq_find (key : String) (t : HSTree) :
    t.search key =
      match t.leaves.find? (fun p => p.1 == key) with
      | some p => (true, p.2)
      | none => (false, PyVal.int (-1)) := by
  induction t with
  | nil => rfl
  | consLeaf k v rest ih =>
    by_cases h : key = k
    · subst h
      rw [HSTree.search, if_pos rfl, HSTree.leaves,
        List.find?_cons_of_pos _ (by simp)]
    · rw [HSTree.search, if_neg h, HSTree.leaves,
        List.find?_cons_of_neg _ (by simp [beq_eq_false_iff_ne, Ne.symm h]), ih]
  | consTree k sub rest ihsub ihrest =>
    rw [HSTree.search, HSTree.leaves, List.find?_append]
    cases hf : sub.leaves.find? (fun p => p.1 == key) with
    | none =>
      rw [hf] at ihsub
      rw [ihsub, Option.none_or, ihrest]
    | some pr =>
      rw [hf] at ihsub
      rw [ihsub]
      rfl

/-! ### Behaviour of the binning methods for an integer factor that divides
both binned extents, and of `set_scan_shape` -/

lemma bin_diffraction_divisible (s : DataCube) (n : Int) (h1 : 1 < n)
    (h2 : s.data4D.n2 % n.toNat = 0) (h3 : s.data4D.n3 % n.toNat = 0) :
    bin_diffraction (PyNum.int n) s
      = ({ s with data4D := (binSum23 s.data4D s.data4D.n0 s.data4D.n1
            (s.data4D.n2 / n.toNat) (s.data4D.n3 / n.toNat) n.toNat) }, none) := by
  have hle : ¬ n ≤ 1 := not_le.mpr h1
  have e2 : s.data4D.n2 / n.toNat * n.toNat = s.data4D.n2 :=
    Nat.div_mul_cancel (Nat.dvd_of_mod_eq_zero h2)
  have e3 : s.data4D.n3 / n.toNat * n.toNat = s.data4D.n3 :=
    Nat.div_mul_cancel (Nat.dvd_of_mod_eq_zero h3)
  have hcount : s.data4D.count = s.data4D.n0 * s.data4D.n1 *
      (s.data4D.n2 / n.toNat) * n.toNat * (s.data4D.n3 / n.toNat) * n.toNat := by
    have h : s.data4D.n0 * s.data4D.n1 * (s.data4D.n2 / n.toNat) * n.toNat *
        (s.data4D.n3 / n.toNat) * n.toNat
        = s.data4D.n0 * s.data4D.n1 * (s.data4D.n2 / n.toNat * n.toNat) *
          (s.data4D.n3 / n.toNat * n.toNat) := by ring
    rw [h, e2, e3]
    rfl
  simp only [bin_diffraction]
  rw [if_neg hle, if_pos (And.intro h2 h3), if_pos hcount]

lemma bin_real_divisible (s : DataCube) (n : Int) (h1 : 1 < n)
    (h2 : s.data4D.n0 % n.toNat = 0) (h3 : s.data4D.n1 % n.toNat = 0) :
    bin_real (PyNum.int n) s
      = ({ s with data4D := (binSum01 s.data4D (s.data4D.n0 / n.toNat)
            (s.data4D.n1 / n.toNat) s.data4D.n2 s.data4D.n3 n.toNat) }, none) := by
  have hle : ¬ n ≤ 1 := not_le.mpr h1
  have e0 : s.data4D.n0 / n.toNat * n.toNat = s.data4D.n0 :=
    Nat.div_mul_cancel (Nat.dvd_of_mod_eq_zero h2)
  have e1 : s.data4D.n1 / n.toNat * n.toNat = s.data4D.n1 :=
    Nat.div_mul_cancel (Nat.dvd_of_mod_eq_zero h3)
  have hcount : s.data4D.count = s.data4D.n0 / n.toNat * n.toNat *
      (s.data4D.n1 / n.toNat) * n.toNat * s.data4D.n2 * s.data4D.n3 := by
    have h : s.data4D.n0 / n.toNat * n.toNat * (s.data4D.n1 / n.toNat) * n.toNat *
        s.data4D.n2 * s.data4D.n3
        = (s.data4D.n0 / n.toNat * n.toNat) * (s.data4D.n1 / n.toNat * n.toNat) *
          s.data4D.n2 * s.data4D.n3 := by ring
    rw [h, e0, e1]
    rfl
  simp only [bin_real]
  rw [if_neg hle, if_pos (And.intro h2 h3), if_pos hcount]

lemma set_scan_shape_of_count_ne (s : DataCube) (a b : Nat)
    (h : s.data4D.count ≠ s.R_N * s.Q_Ny * s.Q_Nx) :
    set_scan_shape a b s = s := by
  unfold set_scan_shape
  rw [if_neg]
  rintro ⟨h1, _⟩
  exact h h1

lemma set_scan_shape_of_pos (s : DataCube) (a b : Nat)
    (h1 : s.data4D.count = s.R_N * s.Q_Ny * s.Q_Nx)
    (h2 : s.R_N * s.Q_Ny * s.Q_Nx = a * b * s.Q_Ny * s.Q_Nx) :
    set_scan_shape a b s
      = { s with
          data4D := { s.data4D with n0 := a, n1 := b, n2 := s.Q_Ny, n3 := s.Q_Nx },
          R_Ny := a, R_Nx := b } := by
  unfold set_scan_shape
  rw [if_pos ⟨h1, h2⟩]

/-! ### Claim theorems -/

/-- C4 (confirmed): for every parent DataCube and every data argument,
`DiffractionSlice.__init__` raises `AttributeError`, because the right-hand
side of `self.Q_Ny, self.Q_Nx = self.parentDataCube.Q_Ny, self.Q_Nx` reads
`self.Q_Nx` before that attribute has been assigned.  Hence no
`DiffractionSlice` object is ever constructed and the documented
shape-agreement assert of line 16 is never reached. -/
theorem diffraction_slice_init_always_attribute_error
    (parent : DataCube) (data : Arr2) :
    DiffractionSlice.init parent data = Except.error PyErr.attributeError := rfl

/-- C10 (confirmed): for every non-absent tree and target key, the search
returns exactly the first key-matching leaf of the depth-first pre-order leaf
enumeration (children in natural order, each subtree child expanded in place
before its later siblings), as `(true, value)`; if the whole tree is exhausted
without a match it returns `(false, -1)`. -/
theorem search_hs_tree_is_preorder_first_match (key : String) (t : HSTree) :
    search_hs_tree key (some t)
      = match t.leaves.find? (fun p => p.1 == key) with
        | some p => (true, p.2)
        | none => (false, PyVal.int (-1)) :=
  search_eq_find key t

/-- C5 counterexample: the not-found sentinel of `search_hs_tree` is the plain
integer `-1`, not a distinct absence marker.  A tree with a leaf legitimately
holding `-1` produces a found result whose value component is identical to the
not-found sentinel, refuting the claim that the sentinel is distinguishable
from any legitimate leaf value. -/
theorem search_sentinel_equals_legitimate_leaf_value :
    search_hs_tree "k" (some minus_one_leaf_tree) = (true, PyVal.int (-1)) ∧
    search_hs_tree "k" none = (false, PyVal.int (-1)) ∧
    (search_hs_tree "k" (some minus_one_leaf_tree)).2
      = (search_hs_tree "k" none).2 := by
  refine ⟨by decide, rfl, by decide⟩

/-- C5 (corrected): for every tree (absent trees included), whenever the
search reports `found = false` the result is exactly `(false, -1)`; in
particular an absent tree yields `(false, -1)`.  The sentinel is the magic
number `-1` of the leaf-value domain, so only the boolean flag, not the value,
distinguishes a failed search. -/
theorem search_not_found_result_is_false_minus_one (key : String)
    (ot : Option HSTree) (h : (search_hs_tree key ot).1 = false) :
    search_hs_tree key ot = (false, PyVal.int (-1)) := by
  cases ot with
  | none => rfl
  | some t =>
    show t.search key = _
    have h2 : (t.search key).1 = false := h
    rw [search_eq_find] at h2 ⊢
    cases hf : t.leaves.find? (fun p => p.1 == key) with
    | none => rfl
    | some pr =>
      rw [hf] at h2
      simp at h2

/-- Witness for the C5 theorem: searching an empty (but present) tree reports
`found = false`, and the theorem then yields the `(false, -1)` result. -/
theorem search_not_found_result_witness :
    (search_hs_tree "beam_energy" (some HSTree.nil)).1 = false ∧
    search_hs_tree "beam_energy" (some HSTree.nil) = (false, PyVal.int (-1)) :=
  ⟨rfl, search_not_found_result_is_false_minus_one "beam_energy"
    (some HSTree.nil) rfl⟩

/-- C9 (confirmed): for every non-integer (float) binning factor greater
than 1, `bin_diffraction` and `bin_real` fail before any mutation: the
`assert type(bin_q) is int` raises (the failure the spec's error taxonomy
calls `InvalidBinningFactorError`) and the returned state is exactly the
input state — array and all shape fields untouched. -/
theorem float_factor_fails_before_any_mutation (s : DataCube) (x : ℚ)
    (h : 1 < x) :
    bin_diffraction (PyNum.float x) s = (s, some PyErr.assertionError) ∧
    bin_real (PyNum.float x) s = (s, some PyErr.assertionError) := by
  have hx : ¬ x ≤ 1 := not_le.mpr h
  constructor
  · simp only [bin_diffraction]
    rw [if_neg hx]
  · simp only [bin_real]
    rw [if_neg hx]

/-- Witness for the C9 theorem at the concrete float factor `5/2` and a
concrete DataCube. -/
theorem float_factor_fails_witness :
    (1 : ℚ) < mkRat 5 2 ∧
    bin_diffraction (PyNum.float (mkRat 5 2)) dc_1122
      = (dc_1122, some PyErr.assertionError) ∧
    bin_real (PyNum.float (mkRat 5 2)) dc_1122
      = (dc_1122, some PyErr.assertionError) :=
  ⟨by decide,
   (float_factor_fails_before_any_mutation dc_1122 (mkRat 5 2) (by decide)).1,
   (float_factor_fails_before_any_mutation dc_1122 (mkRat 5 2) (by decide)).2⟩

/-- C6 (confirmed): for every DataCube and requested scan shape whose product
with the current diffraction extents differs from the current total element
count, `set_scan_shape` is a silent no-op: the state (array contents and all
shape fields) is returned unchanged, and since the model of the method is a
total function (the `ValueError` is caught by the source's
`except ValueError: pass`), no exception escapes. -/
theorem incompatible_set_scan_shape_is_silent_noop (s : DataCube)
    (r_ny r_nx : Nat) (h : r_ny * r_nx * s.Q_Ny * s.Q_Nx ≠ s.data4D.count) :
    set_scan_shape r_ny r_nx s = s := by
  unfold set_scan_shape
  rw [if_neg]
  rintro ⟨h1, h2⟩
  exact h (h1.trans h2).symm

/-- Witness for the C6 theorem: requesting scan shape `(3, 5)` on a
`1 x 1 x 2 x 2` dataset (15 * 4 elements requested, 4 available). -/
theorem incompatible_set_scan_shape_witness :
    3 * 5 * dc_1122.Q_Ny * dc_1122.Q_Nx ≠ dc_1122.data4D.count ∧
    set_scan_shape 3 5 dc_1122 = dc_1122 :=
  ⟨by decide, incompatible_set_scan_shape_is_silent_noop dc_1122 3 5 (by decide)⟩

/-- C1 (code_bug evaluation): on a DataCube whose array is `1 x 1 x 2 x 2`,
`bin_diffraction(2)` completes with no exception and shrinks the stored
array's diffraction extents to `1 x 1`, yet the recorded extent fields
`Q_Ny`, `Q_Nx` still hold `2`: the binning methods never reassign the extent
attributes, so `data.shape` no longer equals `(R_Ny, R_Nx, Q_Ny, Q_Nx)` after
a completed binning mutation. -/
theorem binning_leaves_extent_fields_stale :
    (bin_diffraction (PyNum.int 2) dc_1122).2 = none ∧
    (bin_diffraction (PyNum.int 2) dc_1122).1.data4D.n2 = 1 ∧
    (bin_diffraction (PyNum.int 2) dc_1122).1.data4D.n3 = 1 ∧
    (bin_diffraction (PyNum.int 2) dc_1122).1.Q_Ny = 2 ∧
    (bin_diffraction (PyNum.int 2) dc_1122).1.Q_Nx = 2 := by
  refine ⟨rfl, rfl, rfl, rfl, rfl⟩

/-- C2 (code_bug evaluation): with the full tree `{beam_energy: 200}` and an
absent shortlist tree, the full-tree pass resolves the canonical field
`accelerating_voltage_kV` to `200`, but after DataCube construction the field
holds `""`: the second (shortlist) pass unconditionally resets every field to
the empty string before searching, so values resolved only from the full tree
are wiped instead of being retained. -/
theorem shortlist_pass_wipes_full_tree_value :
    (get_metadata_from_original_metadata (some beam_energy_tree)
        original_to_microscope_search_dict PyDict.empty) "accelerating_voltage_kV"
      = some (PyVal.int 200) ∧
    dc_beam.metadata.microscope "accelerating_voltage_kV"
      = some (PyVal.str "") := by
  refine ⟨rfl, rfl⟩

/-- C3 (code_bug evaluation): on a DataCube whose diffraction extents are
`(4, 3)`, `bin_diffraction(2)` hits the mixed-remainder case
(`4 % 2 = 0`, `3 % 2 = 1`): the truncation slice `[:, :, :-0, :-1]` empties
the evenly divisible axis instead of keeping it whole (Python `x[:-0]` is
empty), after which the 6D reshape raises an uncaught `ValueError`, leaving
`data4D` truncated to a `1 x 1 x 0 x 2` array — not the claimed drop of
exactly the trailing remainder samples followed by a `2 x 1` binned output. -/
theorem mixed_remainder_empties_axis_and_raises :
    (bin_diffraction (PyNum.int 2) dc_1143).2 = some PyErr.valueError ∧
    (bin_diffraction (PyNum.int 2) dc_1143).1.data4D.n2 = 0 ∧
    (bin_diffraction (PyNum.int 2) dc_1143).1.data4D.n3 = 2 := by
  refine ⟨rfl, rfl, rfl⟩

/-- C7 (confirmed): for every integer binning factor greater than 1 dividing
both extents of the binned axis pair, `bin_diffraction` (respectively
`bin_real`) completes without exception and the sum of all elements of the
resulting array equals the sum of all elements before binning: bins are
summed, not averaged, and no truncation occurs. -/
theorem binning_conserves_total_when_divisible (s : DataCube) (n : Int)
    (h1 : 1 < n) :
    (s.data4D.n2 % n.toNat = 0 → s.data4D.n3 % n.toNat = 0 →
      (bin_diffraction (PyNum.int n) s).2 = none ∧
      (bin_diffraction (PyNum.int n) s).1.data4D.total = s.data4D.total) ∧
    (s.data4D.n0 % n.toNat = 0 → s.data4D.n1 % n.toNat = 0 →
      (bin_real (PyNum.int n) s).2 = none ∧
      (bin_real (PyNum.int n) s).1.data4D.total = s.data4D.total) := by
  constructor
  · intro h2 h3
    rw [bin_diffraction_divisible s n h1 h2 h3]
    refine ⟨rfl, ?_⟩
    show (binSum23 s.data4D s.data4D.n0 s.data4D.n1 (s.data4D.n2 / n.toNat)
      (s.data4D.n3 / n.toNat) n.toNat).total = s.data4D.total
    rw [binSum23_total, Nat.div_mul_cancel (Nat.dvd_of_mod_eq_zero h2),
      Nat.div_mul_cancel (Nat.dvd_of_mod_eq_zero h3)]
    rfl
  · intro h2 h3
    rw [bin_real_divisible s n h1 h2 h3]
    refine ⟨rfl, ?_⟩
    show (binSum01 s.data4D (s.data4D.n0 / n.toNat) (s.data4D.n1 / n.toNat)
      s.data4D.n2 s.data4D.n3 n.toNat).total = s.data4D.total
    rw [binSum01_total, Nat.div_mul_cancel (Nat.dvd_of_mod_eq_zero h2),
      Nat.div_mul_cancel (Nat.dvd_of_mod_eq_zero h3)]
    rfl

/-- Witness for the C7 theorem: factor 2 on a `2 x 2 x 2 x 2` DataCube with
pairwise distinct entries; both extents of either binned axis pair are
divisible by 2. -/
theorem binning_conserves_total_witness :
    (1 : Int) < 2 ∧
    dc_2222.data4D.n2 % (2 : Int).toNat = 0 ∧
    dc_2222.data4D.n3 % (2 : Int).toNat = 0 ∧
    dc_2222.data4D.n0 % (2 : Int).toNat = 0 ∧
    dc_2222.data4D.n1 % (2 : Int).toNat = 0 ∧
    ((bin_diffraction (PyNum.int 2) dc_2222).2 = none ∧
      (bin_diffraction (PyNum.int 2) dc_2222).1.data4D.total
        = dc_2222.data4D.total) ∧
    ((bin_real (PyNum.int 2) dc_2222).2 = none ∧
      (bin_real (PyNum.int 2) dc_2222).1.data4D.total = dc_2222.data4D.total) :=
  ⟨by decide, by decide, by decide, by decide, by decide,
   (binning_conserves_total_when_divisible dc_2222 2 (by decide)).1
     (by decide) (by decide),
   (binning_conserves_total_when_divisible dc_2222 2 (by decide)).2
     (by decide) (by decide)⟩

/-- C8 (confirmed): for a DataCube constructed from `data` with declared
extents `(r_ny, r_nx, q_ny, q_nx)` and any requested scan shape
`(r_y, r_x)` whose product with the diffraction extents equals the original
element count, `set_scan_shape(r_y, r_x)` followed by
`set_scan_shape(r_ny, r_nx)` restores the DataCube exactly: the reshape
round-trip is the identity on the stored array (shape and contents) and on
every attribute. -/
theorem set_scan_shape_round_trip (data : Arr4)
    (r_ny r_nx q_ny q_nx r_y r_x : Nat) (shortlist all : Option HSTree)
    (h : r_y * r_x * q_ny * q_nx = data.count) :
    set_scan_shape r_ny r_nx (set_scan_shape r_y r_x
        (DataCube.init data r_ny r_nx q_ny q_nx shortlist all))
      = DataCube.init data r_ny r_nx q_ny q_nx shortlist all := by
  by_cases c : data.count = r_ny * r_nx * q_ny * q_nx
  · have e1 : DataCube.init data r_ny r_nx q_ny q_nx shortlist all
        = { data4D := { data with n0 := r_ny, n1 := r_nx, n2 := q_ny, n3 := q_nx },
            R_Ny := r_ny, R_Nx := r_nx, Q_Ny := q_ny, Q_Nx := q_nx,
            R_N := r_ny * r_nx,
            metadata := setup_metadata shortlist all } := by
      unfold DataCube.init
      rw [set_scan_shape_of_pos
        { data4D := data, R_Ny := r_ny, R_Nx := r_nx, Q_Ny := q_ny, Q_Nx := q_nx,
          R_N := r_ny * r_nx, metadata := Metadata.empty } r_ny r_nx c rfl]
    rw [e1]
    have e2 : set_scan_shape r_y r_x
        { data4D := { data with n0 := r_ny, n1 := r_nx, n2 := q_ny, n3 := q_nx },
          R_Ny := r_ny, R_Nx := r_nx, Q_Ny := q_ny, Q_Nx := q_nx,
          R_N := r_ny * r_nx,
          metadata := setup_metadata shortlist all }
        = { data4D := { data with n0 := r_y, n1 := r_x, n2 := q_ny, n3 := q_nx },
            R_Ny := r_y, R_Nx := r_x, Q_Ny := q_ny, Q_Nx := q_nx,
            R_N := r_ny * r_nx,
            metadata := setup_metadata shortlist all } :=
      set_scan_shape_of_pos
        { data4D := { data with n0 := r_ny, n1 := r_nx, n2 := q_ny, n3 := q_nx },
          R_Ny := r_ny, R_Nx := r_nx, Q_Ny := q_ny, Q_Nx := q_nx,
          R_N := r_ny * r_nx,
          metadata := setup_metadata shortlist all } r_y r_x rfl (h.trans c).symm
    rw [e2]
    exact set_scan_shape_of_pos
      { data4D := { data with n0 := r_y, n1 := r_x, n2 := q_ny, n3 := q_nx },
        R_Ny := r_y, R_Nx := r_x, Q_Ny := q_ny, Q_Nx := q_nx,
        R_N := r_ny * r_nx,
        metadata := setup_metadata shortlist all } r_ny r_nx (h.trans c) rfl
  · have e1 : DataCube.init data r_ny r_nx q_ny q_nx shortlist all
        = { data4D := data, R_Ny := r_ny, R_Nx := r_nx, Q_Ny := q_ny,
            Q_Nx := q_nx, R_N := r_ny * r_nx,
            metadata := setup_metadata shortlist all } := by
      unfold DataCube.init
      rw [set_scan_shape_of_count_ne
        { data4D := data, R_Ny := r_ny, R_Nx := r_nx, Q_Ny := q_ny, Q_Nx := q_nx,
          R_N := r_ny * r_nx, metadata := Metadata.empty } r_ny r_nx c]
    rw [e1]
    rw [set_scan_shape_of_count_ne
      { data4D := data, R_Ny := r_ny, R_Nx := r_nx, Q_Ny := q_ny, Q_Nx := q_nx,
        R_N := r_ny * r_nx,
        metadata := setup_metadata shortlist all } r_y r_x c]
    rw [set_scan_shape_of_count_ne
      { data4D := data, R_Ny := r_ny, R_Nx := r_nx, Q_Ny := q_ny, Q_Nx := q_nx,
        R_N := r_ny * r_nx,
        metadata := setup_metadata shortlist all } r_ny r_nx c]

/-- Witness for the C8 theorem: a 16-element `2 x 2 x 2 x 2` dataset, reshaped
to scan shape `(4, 1)` and back to `(2, 2)`. -/
theorem set_scan_shape_round_trip_witness :
    4 * 1 * 2 * 2 = arr_2222.count ∧
    set_scan_shape 2 2 (set_scan_shape 4 1
        (DataCube.init arr_2222 2 2 2 2 none none))
      = DataCube.init arr_2222 2 2 2 2 none none :=
  ⟨by decide, set_scan_shape_round_trip arr_2222 2 2 2 2 4 1 none none (by decide)⟩
